import Mathlib

/-!
Verification of the print-shop job tracker (Streamlit CRUD app).

The repository has two variants of the application:
  * `app.py`  — the Google-Sheets-backed variant (records keyed by a
    sequential counter id `MCADD_NNN`, one QR per client email);
  * `admin.py` / `viewer.py` — the local-CSV variant (records keyed by a
    random 8-hex-digit token, one QR per job).

This file shallowly embeds the record store and the operations on it.
Rows of the backing table become a `List` of records; the external world
(Sheets/CSV reads that can throw, the ImgBB upload that can fail, the
user-supplied form fields, the uuid token) becomes explicit parameters.
Each definition is a direct translation of the corresponding Python.
-/

namespace PrintTracker

/-! ## String helpers (models of the Python `str` methods used) -/

/-- Whether a character counts as strippable whitespace (model of what
Python's `str.strip()` removes, restricted to the ASCII whitespace that can
occur in this app's data). -/
def ws (c : Char) : Bool := c.isWhitespace

/-- Remove leading and trailing whitespace from a character list
(model of Python `str.strip()`). -/
def stripList (l : List Char) : List Char :=
  ((l.dropWhile ws).reverse.dropWhile ws).reverse

/-- Model of Python `str.strip()`. -/
def pystrip (s : String) : String := ⟨stripList s.data⟩

/-- Model of Python `str.lower()` (ASCII letters; the app's data is ASCII). -/
def pylower (s : String) : String := ⟨s.data.map Char.toLower⟩

/-- Model of Python `str.split(sep)` for a single-character separator. -/
def pysplit (sep : Char) : List Char → List (List Char)
  | [] => [[]]
  | c :: rest =>
    let r := pysplit sep rest
    if c = sep then [] :: r
    else
      match r with
      | h :: t => (c :: h) :: t
      | [] => [[c]]

/-- Model of Python `str.zfill(w)`: left-pad with `'0'` to width `w`
(the app only ever zfills digit strings, so the sign handling of the real
`zfill` never fires). -/
def zfill (w : Nat) (s : String) : String :=
  ⟨List.replicate (w - s.length) '0' ++ s.data⟩

/-! ## Data model

`app.py` appends sheet rows
`[job_id, client_name, file_name, client_email, status, created_at, qr_path]`
(header at `app.py` line 99). -/

/-- One row of the `Jobs` worksheet in the Sheets variant (`app.py`). -/
structure JobRecord where
  job_id : String
  client_name : String
  file_name : String
  client_email : String
  status : String
  created_at : String
  qr_path : String
deriving DecidableEq, Repr

/-- One row of `jobs.csv` in the CSV variant
(`admin.py` line 20: `job_id, client_name, description, status, created_at, qr_path`). -/
structure CsvRecord where
  job_id : String
  client_name : String
  description : String
  status : String
  created_at : String
  qr_path : String
deriving DecidableEq, Repr

/-! ## `app.py`: the one-QR-per-email Sheets variant -/

/-- The QR-cell parser embedded in `find_existing_qr_for_email`
(`app.py` lines 215–228): from a `qr_path` cell, extract a usable public URL.
A cell of the form `=IMAGE("<url>")` yields `<url>` when `<url>` starts with
`http`; otherwise a cell that itself starts with `http` is returned directly;
anything else yields nothing. -/
def extract_from_cell (qr_cell : String) : Option String :=
  let fromImage : Option String :=
    if qr_cell.startsWith "=IMAGE(\"" && ((qr_cell.drop 8).contains '"') then
      match (pysplit '"' qr_cell.data).get? 1 with
      | some url =>
        if (String.mk url).startsWith "http" then some (String.mk url) else none
      | none => none
    else none
  match fromImage with
  | some u => some u
  | none => if qr_cell.startsWith "http" then some qr_cell else none

/-- The row scan of `find_existing_qr_for_email` (`app.py` lines 211–229):
first row whose `client_email` equals the query after strip+lower and whose
`qr_path` cell yields a URL. -/
def findScan (email : String) : List JobRecord → Option String
  | [] => none
  | r :: rest =>
    if pylower (pystrip r.client_email) = pylower (pystrip email) then
      match extract_from_cell r.qr_path with
      | some u => some u
      | none => findScan email rest
    else findScan email rest

/-- `find_existing_qr_for_email` (`app.py` lines 207–231).  The
`ws.get_all_records()` call can throw; the whole body is wrapped in
`try/except Exception: return None`, so a failed read is modelled as
`readResult = none` and yields `none` — indistinguishable from "no existing
QR". -/
def find_existing_qr_for_email (email : String)
    (readResult : Option (List JobRecord)) : Option String :=
  match readResult with
  | none => none
  | some records => findScan email records

/-- `update_status_in_sheet` (`app.py` lines 257–263): scan rows in order,
overwrite the status cell (column 5) of the first row whose `job_id` equals
the argument, return whether a row matched. -/
def update_status_in_sheet : List JobRecord → String → String → List JobRecord × Bool
  | [], _, _ => ([], false)
  | r :: rest, job_id, new_status =>
    if r.job_id = job_id then ({ r with status := new_status } :: rest, true)
    else ((r :: (update_status_in_sheet rest job_id new_status).1),
          (update_status_in_sheet rest job_id new_status).2)

/-- Modelled from the spec: `lookup(job_id) -> Option<JobRecord>`, the Record
Store's "point read by exact string match" (§4.1).  The Sheets variant in
`src/` has no id-keyed read of its own (its viewer is email-keyed), so the
spec's operation is modelled directly: first row in row order whose `job_id`
equals the key. -/
def lookup (store : List JobRecord) (job_id : String) : Option JobRecord :=
  store.find? (fun r => r.job_id = job_id)

/-- The sequential job-id allocation of `app.py` line 440–441:
`job_no = len(df) + 1; job_id = f"MCADD_{str(job_no).zfill(3)}"`. -/
def mkJobId (job_no : Nat) : String := "MCADD_" ++ zfill 3 (Nat.repr job_no)

/-- The row appended by `app.py` line 456:
`[job_id, client, file_name, client_email, "Pending", created_at, ""]`. -/
def mkNewRecord (store : List JobRecord)
    (client fileName clientEmail createdAt : String) : JobRecord :=
  ⟨mkJobId (store.length + 1), client, fileName, clientEmail, "Pending", createdAt, ""⟩

/-- The `ws.update(f"G{last_row}:G{last_row}", [[qr_formula]])` of `app.py`
line 460: write the QR column of the last (just-appended) row. -/
def setLastQr : List JobRecord → String → List JobRecord
  | [], _ => []
  | [r], q => [{ r with qr_path := q }]
  | r :: rest, q => r :: setLastQr rest q

/-- The spreadsheet image formula built at `app.py` line 453. -/
def qrFormula (publicUrl : String) : String := "=IMAGE(\"" ++ publicUrl ++ "\")"

/-- Result of one press of the "Create Job" button, as reported to the user. -/
inductive CreateOutcome where
  /-- `st.error("Please provide client name, file name and client email.")` -/
  | validationError
  /-- `st.error("Error creating job: ...")` — the `except` at line 478 -/
  | createError
  /-- `st.success(f"Job {job_id} created...")` -/
  | createdOk
deriving DecidableEq, Repr

/-- The Front-Desk create handler of `admin_page` (`app.py` lines 435–479).

External effects become parameters: `freshUrl` is the URL ImgBB would return
for a newly generated QR; `findReadFails` makes the sheet read inside
`find_existing_qr_for_email` throw; `qrUploadFails` makes
`generate_qr_and_upload_for_email` throw (QR generation or upload);
`cellUpdateFails` makes the post-append `ws.update` of the QR cell throw.
Exceptions inside the `try` are caught at line 478 and reported as
`createError`; whatever rows were already appended stay appended. -/
def create_job (store : List JobRecord)
    (client fileName clientEmail createdAt freshUrl : String)
    (findReadFails qrUploadFails cellUpdateFails : Bool) :
    List JobRecord × CreateOutcome :=
  if client = "" ∨ fileName = "" ∨ clientEmail = "" then
    (store, .validationError)
  else
    match find_existing_qr_for_email clientEmail
        (if findReadFails then none else some store) with
    | some url =>
      let store1 := store ++ [mkNewRecord store client fileName clientEmail createdAt]
      if cellUpdateFails then (store1, .createError)
      else (setLastQr store1 (qrFormula url), .createdOk)
    | none =>
      if qrUploadFails then (store, .createError)
      else
        let store1 := store ++ [mkNewRecord store client fileName clientEmail createdAt]
        if cellUpdateFails then (store1, .createError)
        else (setLastQr store1 (qrFormula freshUrl), .createdOk)

/-- The email filter of `viewer_page` (`app.py` line 340):
`df[df["client_email"].astype(str).str.lower() == email_input.strip().lower()]`.
Row side is lowered only; the query is stripped then lowered. -/
def viewer_email_filter (df : List JobRecord) (email_input : String) : List JobRecord :=
  df.filter (fun r => pylower r.client_email = pylower (pystrip email_input))

/-- The fixed stage sequence of `viewer_page` (`app.py` line 361). -/
def STATUS_STEPS : List String :=
  ["Pending", "Checking Document", "Printing", "Ready for Pickup", "Completed"]

/-- The stage-position computation of `viewer_page` (`app.py` lines 362–366):
`STATUS_STEPS.index(current_status)`, with the `ValueError` of an unknown
status caught and turned into index `0`. -/
def current_index (status : String) : Nat :=
  match STATUS_STEPS.findIdx? (fun step => step = status) with
  | some i => i
  | none => 0

/-! ## `admin.py` / `viewer.py`: the CSV variant -/

/-- The create handler of `admin.py` (lines 38–66).  `newId` is the externally
drawn token `uuid.uuid4().hex[:8].upper()`; `qrDir` stands for the
`QR_FOLDER` path prefix.  Returns the new dataframe (written back to the CSV)
and whether a row was created.  There is no duplicate-id check: the new row is
appended unconditionally once validation passes. -/
def admin_create_job (df : List CsvRecord)
    (client descr status newId createdAt qrDir : String) : List CsvRecord × Bool :=
  if client = "" ∨ descr = "" then (df, false)
  else (df ++ [⟨newId, client, descr, status, createdAt, qrDir ++ newId ++ ".png"⟩], true)

/-- The job lookup of `viewer.py` (lines 41–51): filter rows whose stripped
`job_id` equals the stripped query, then take `iloc[0]`. -/
def viewer_find_job (df : List CsvRecord) (job_param : String) : Option CsvRecord :=
  (df.filter (fun r => pystrip r.job_id = pystrip job_param)).head?

/-- What one run of `viewer.py` shows the client. -/
inductive ViewerOutcome where
  /-- `st.error("jobs.csv not found...")` then `st.stop()` (lines 13–15) -/
  | errMissingCsv
  /-- `st.error(f"Failed to read jobs.csv: ...")` then `st.stop()` (lines 18–22) -/
  | errReadFailed
  /-- `st.info("No Job ID found in the link...")` (lines 27–29) -/
  | noJobParam
  /-- `st.error("Invalid or unknown Job ID...")` plus the admin-debug id list (lines 45–49) -/
  | notFound (ids : List String)
  /-- the record rendered at lines 51–73 -/
  | found (r : CsvRecord)
deriving DecidableEq, Repr

/-- The main flow of `viewer.py` (lines 13–51).  `fileExists` models
`os.path.exists(CSV_FILE)`; `readResult = none` models `pd.read_csv`
throwing; `jobParam` is the `job_id` query parameter (`none` when absent; the
empty string is also falsy at line 27).  The header-shape check of line 36 is
vacuous in this typed embedding. -/
def viewer_run (fileExists : Bool) (readResult : Option (List CsvRecord))
    (jobParam : Option String) : ViewerOutcome :=
  if fileExists = false then .errMissingCsv
  else
    match readResult with
    | none => .errReadFailed
    | some df =>
      match jobParam with
      | none => .noJobParam
      | some p =>
        if p = "" then .noJobParam
        else
          match viewer_find_job df p with
          | none => .notFound (df.map (·.job_id))
          | some r => .found r

/-! ## Sequences of create operations (for the id-uniqueness invariant) -/

/-- One press of the create button in the Sheets variant: the operator's form
fields together with the behaviour of the external world during that run. -/
structure CreateInput where
  client : String
  fileName : String
  clientEmail : String
  createdAt : String
  freshUrl : String
  findReadFails : Bool
  qrUploadFails : Bool
  cellUpdateFails : Bool

/-- Run a sequence of create operations against a starting store, each one
reloading the store left by the previous (the sequential execution model of
the app: one synchronous button press at a time). -/
def runCreates (store : List JobRecord) : List CreateInput → List JobRecord
  | [] => store
  | i :: rest =>
    runCreates (create_job store i.client i.fileName i.clientEmail i.createdAt
      i.freshUrl i.findReadFails i.qrUploadFails i.cellUpdateFails).1 rest

/-- The store after a sequence of create operations from the empty store. -/
def createSeq (inputs : List CreateInput) : List JobRecord :=
  runCreates [] inputs

/-- The id-allocation invariant of the counter scheme: the row at (0-based)
position `j` carries id `MCADD_<zfill3 (j+1)>`. -/
def idsByPos (store : List JobRecord) : Prop :=
  ∀ (j : Nat) (r : JobRecord), store[j]? = some r → r.job_id = mkJobId (j + 1)

/-! ## Helper lemmas -/

theorem setLastQr_append (l : List JobRecord) (r : JobRecord) (q : String) :
    setLastQr (l ++ [r]) q = l ++ [{ r with qr_path := q }] := by
  induction l with
  | nil => rfl
  | cons x xs ih =>
    cases xs with
    | nil => simp [setLastQr, ih]
    | cons y ys => simp [setLastQr] at ih ⊢; exact ih

/-- Every run of the create handler either leaves the store unchanged or
appends exactly one row: the freshly allocated record, possibly with its QR
cell filled in. -/
theorem create_job_store_shape (store : List JobRecord)
    (c f e t u : String) (fr qf cu : Bool) :
    (create_job store c f e t u fr qf cu).1 = store ∨
    ∃ q, (create_job store c f e t u fr qf cu).1 =
      store ++ [{ mkNewRecord store c f e t with qr_path := q }] := by
  unfold create_job
  by_cases hv : c = "" ∨ f = "" ∨ e = ""
  · left; simp [hv]
  · rw [if_neg hv]
    cases hfind : find_existing_qr_for_email e (if fr then none else some store) with
    | some url =>
      by_cases hcu : cu = true
      · right
        exact ⟨"", by simp [hcu, setLastQr_append, mkNewRecord]⟩
      · right
        refine ⟨qrFormula url, ?_⟩
        simp only [Bool.not_eq_true] at hcu
        simp [hcu, setLastQr_append]
    | none =>
      by_cases hqf : qf = true
      · left; simp [hqf]
      · simp only [Bool.not_eq_true] at hqf
        by_cases hcu : cu = true
        · right
          exact ⟨"", by simp [hqf, hcu, setLastQr_append, mkNewRecord]⟩
        · right
          refine ⟨qrFormula u, ?_⟩
          simp only [Bool.not_eq_true] at hcu
          simp [hqf, hcu, setLastQr_append]

/-! ## C1 — partial-failure policy of job creation -/

/-- C1 (counterexample): with a non-empty valid form and no pre-existing QR
for the email, a QR generation/upload failure (`qrUploadFails = true`) aborts
the whole creation *before* the append: the store stays empty and the user
sees "Error creating job" — the record is lost, not "created without a usable
QR reference" as claimed. -/
theorem create_qr_failure_loses_record :
    create_job [] "Ana" "invoice.pdf" "ana@example.com" "2024-01-01 00:00:00"
        "http://img/x.png" false true false
      = ([], CreateOutcome.createError) := by decide

/-- C1 (amended): a validation failure aborts before any side effect; a
QR-generation/upload failure also aborts *before* the record is appended
(the record is lost); only a failure of the post-append QR-cell update leaves
the record appended — without a usable QR reference — while the creation is
reported as failed. -/
theorem create_partial_failure :
    (∀ (store : List JobRecord) (c f e t u : String) (fr qf cu : Bool),
        (c = "" ∨ f = "" ∨ e = "") →
        create_job store c f e t u fr qf cu = (store, CreateOutcome.validationError)) ∧
    (∀ (store : List JobRecord) (c f e t u : String) (cu : Bool),
        c ≠ "" → f ≠ "" → e ≠ "" →
        find_existing_qr_for_email e (some store) = none →
        create_job store c f e t u false true cu = (store, CreateOutcome.createError)) ∧
    (∀ (store : List JobRecord) (c f e t u : String),
        c ≠ "" → f ≠ "" → e ≠ "" →
        create_job store c f e t u false false true =
          (store ++ [mkNewRecord store c f e t], CreateOutcome.createError)) := by
  refine ⟨?_, ?_, ?_⟩
  · intro store c f e t u fr qf cu hv
    simp [create_job, hv]
  · intro store c f e t u cu hc hf he hfind
    simp [create_job, hc, hf, he, hfind]
  · intro store c f e t u hc hf he
    unfold create_job
    rw [if_neg (by simp [hc, hf, he])]
    cases hfind : find_existing_qr_for_email e (some store) <;> simp [hfind]

/-- C1 (witness): the three branches of `create_partial_failure` at concrete
inputs. -/
theorem create_partial_failure_witness :
    create_job [] "" "invoice.pdf" "a@b.c" "t" "u" false false false
        = ([], CreateOutcome.validationError) ∧
    create_job [] "Ana" "invoice.pdf" "a@b.c" "t" "u" false true false
        = ([], CreateOutcome.createError) ∧
    create_job [] "Ana" "invoice.pdf" "a@b.c" "t" "u" false false true
        = ([mkNewRecord [] "Ana" "invoice.pdf" "a@b.c" "t"], CreateOutcome.createError) :=
  ⟨create_partial_failure.1 [] "" "invoice.pdf" "a@b.c" "t" "u" false false false
      (Or.inl rfl),
   create_partial_failure.2.1 [] "Ana" "invoice.pdf" "a@b.c" "t" "u" false
      (by decide) (by decide) (by decide) (by decide),
   create_partial_failure.2.2 [] "Ana" "invoice.pdf" "a@b.c" "t" "u"
      (by decide) (by decide) (by decide)⟩

/-! ## C2 — status at creation -/

/-- C2 (counterexample): in the CSV variant (`admin.py`), the operator picks
the *initial* status from the stage dropdown, so a job can be created with
status `"Printing"` — the claim's "equals Pending in every variant" fails. -/
theorem admin_initial_status_cex :
    ((admin_create_job [] "Ana" "invoice.pdf" "Printing" "AB12CD34"
        "2024-01-01 00:00:00" "qrcodes/").1.map CsvRecord.status) = ["Printing"] ∧
    "Printing" ≠ "Pending" := by decide

/-- C2 (amended): in the Sheets variant (`app.py`) every record a create run
adds has status `"Pending"`; in the CSV variant (`admin.py`) the created
record's status is exactly the stage the operator selected (the dropdown
defaults to `"Pending"` but any stage may be chosen). -/
theorem created_status_pending :
    (∀ (store : List JobRecord) (c f e t u : String) (fr qf cu : Bool)
        (r : JobRecord),
        r ∈ (create_job store c f e t u fr qf cu).1 →
        r ∈ store ∨ r.status = "Pending") ∧
    (∀ (df : List CsvRecord) (c d s id t dir : String),
        c ≠ "" → d ≠ "" →
        (admin_create_job df c d s id t dir).1 =
          df ++ [⟨id, c, d, s, t, dir ++ id ++ ".png"⟩]) := by
  constructor
  · intro store c f e t u fr qf cu r hr
    rcases create_job_store_shape store c f e t u fr qf cu with h | ⟨q, h⟩
    · left; rwa [h] at hr
    · rw [h, List.mem_append] at hr
      rcases hr with hr | hr
      · exact Or.inl hr
      · right
        simp only [List.mem_singleton] at hr
        rw [hr]
        rfl
  · intro df c d s id t dir hc hd
    simp [admin_create_job, hc, hd]

/-- C2 (witness): `created_status_pending` at concrete inputs. -/
theorem created_status_pending_witness :
    ((⟨"MCADD_001", "Ana", "invoice.pdf", "a@b.c", "Pending", "t",
        "=IMAGE(\"http://img/x.png\")"⟩ : JobRecord) ∈ ([] : List JobRecord) ∨
      (⟨"MCADD_001", "Ana", "invoice.pdf", "a@b.c", "Pending", "t",
        "=IMAGE(\"http://img/x.png\")"⟩ : JobRecord).status = "Pending") ∧
    (admin_create_job [] "Ana" "invoice.pdf" "Pending" "AB12CD34" "t" "qrcodes/").1 =
      [] ++ [⟨"AB12CD34", "Ana", "invoice.pdf", "Pending", "t", "qrcodes/AB12CD34.png"⟩] :=
  ⟨created_status_pending.1 [] "Ana" "invoice.pdf" "a@b.c" "t" "http://img/x.png"
      false false false
      ⟨"MCADD_001", "Ana", "invoice.pdf", "a@b.c", "Pending", "t",
        "=IMAGE(\"http://img/x.png\")"⟩ (by decide),
   created_status_pending.2 [] "Ana" "invoice.pdf" "Pending" "AB12CD34" "t" "qrcodes/"
      (by decide) (by decide)⟩

/-! ## C3 — update then lookup; not-found leaves the store unchanged -/

/-- C3: if a record with the id exists, `update_status_in_sheet` reports
success and a subsequent `lookup` sees the new status; if none exists, it
reports not-found (`false`) and the store is bit-for-bit unchanged. -/
theorem update_then_lookup (store : List JobRecord) (id s : String) :
    ((lookup store id).isSome →
        (update_status_in_sheet store id s).2 = true ∧
        ∃ r, lookup (update_status_in_sheet store id s).1 id = some r ∧
          r.status = s) ∧
    (lookup store id = none →
        (update_status_in_sheet store id s).2 = false ∧
        (update_status_in_sheet store id s).1 = store) := by
  induction store with
  | nil => simp [lookup, update_status_in_sheet]
  | cons r rest ih =>
    by_cases h : r.job_id = id
    · constructor
      · intro _
        refine ⟨by simp [update_status_in_sheet, h], ?_⟩
        exact ⟨{ r with status := s }, by simp [update_status_in_sheet, lookup, h], rfl⟩
      · intro hnone
        simp [lookup, List.find?_cons, h] at hnone
    · constructor
      · intro hsome
        have hsome' : (lookup rest id).isSome := by
          simpa [lookup, List.find?_cons, h] using hsome
        obtain ⟨hfound, r', hr', hst⟩ := ih.1 hsome'
        refine ⟨by simp [update_status_in_sheet, h, hfound], ⟨r', ?_, hst⟩⟩
        simpa [update_status_in_sheet, h, lookup, List.find?_cons] using hr'
      · intro hnone
        have hnone' : lookup rest id = none := by
          simpa [lookup, List.find?_cons, h] using hnone
        obtain ⟨hfound, hsame⟩ := ih.2 hnone'
        exact ⟨by simp [update_status_in_sheet, h, hfound],
               by simp [update_status_in_sheet, h, hsame]⟩

/-- C3 (witness): both branches of `update_then_lookup` on a one-row store. -/
theorem update_then_lookup_witness :
    ((update_status_in_sheet [⟨"MCADD_001", "Ana", "f.pdf", "a@b.c", "Pending", "t", ""⟩]
        "MCADD_001" "Printing").2 = true ∧
      ∃ r, lookup (update_status_in_sheet
          [⟨"MCADD_001", "Ana", "f.pdf", "a@b.c", "Pending", "t", ""⟩]
          "MCADD_001" "Printing").1 "MCADD_001" = some r ∧ r.status = "Printing") ∧
    ((update_status_in_sheet [⟨"MCADD_001", "Ana", "f.pdf", "a@b.c", "Pending", "t", ""⟩]
        "MCADD_999" "Printing").2 = false ∧
      (update_status_in_sheet [⟨"MCADD_001", "Ana", "f.pdf", "a@b.c", "Pending", "t", ""⟩]
        "MCADD_999" "Printing").1 =
        [⟨"MCADD_001", "Ana", "f.pdf", "a@b.c", "Pending", "t", ""⟩]) :=
  ⟨(update_then_lookup [⟨"MCADD_001", "Ana", "f.pdf", "a@b.c", "Pending", "t", ""⟩]
      "MCADD_001" "Printing").1 (by decide),
   (update_then_lookup [⟨"MCADD_001", "Ana", "f.pdf", "a@b.c", "Pending", "t", ""⟩]
      "MCADD_999" "Printing").2 (by decide)⟩

/-! ## C4 — the update touches only the status field -/

/-- C4: `update_status_in_sheet` relates the old and new store row-by-row:
every row whose id differs from the key is unchanged, and every row is either
unchanged or agrees with its old self on all fields except `status`
(in particular `created_at`), which then holds the new value. -/
theorem update_status_frame (store : List JobRecord) (id s : String) :
    List.Forall₂
      (fun r r' =>
        (r.job_id ≠ id → r' = r) ∧
        (r' = r ∨
          (r'.job_id = r.job_id ∧ r'.client_name = r.client_name ∧
           r'.file_name = r.file_name ∧ r'.client_email = r.client_email ∧
           r'.created_at = r.created_at ∧ r'.qr_path = r.qr_path ∧
           r'.status = s)))
      store (update_status_in_sheet store id s).1 := by
  induction store with
  | nil => simp [update_status_in_sheet]
  | cons r rest ih =>
    by_cases h : r.job_id = id
    · simp only [update_status_in_sheet, if_pos h]
      refine List.Forall₂.cons
        ⟨fun hne => absurd h hne, Or.inr ⟨rfl, rfl, rfl, rfl, rfl, rfl, rfl⟩⟩ ?_
      exact List.forall₂_same.mpr (fun x _ => ⟨fun _ => rfl, Or.inl rfl⟩)
    · simp only [update_status_in_sheet, if_neg h]
      exact List.Forall₂.cons ⟨fun _ => rfl, Or.inl rfl⟩ ih

/-! ## C6 — no duplicate-id check in the CSV variant -/

/-- C6 (counterexample): creating a job whose freshly drawn token equals an
id already in `jobs.csv` is *not* rejected: the handler reports success and
the colliding row is appended, leaving two rows with id `"AB12CD34"`. -/
theorem admin_duplicate_id_accepted_cex :
    (admin_create_job [⟨"AB12CD34", "Ana", "f.pdf", "Pending", "t", "p"⟩]
        "Bob" "g.pdf" "Pending" "AB12CD34" "t2" "qrcodes/").2 = true ∧
    ((admin_create_job [⟨"AB12CD34", "Ana", "f.pdf", "Pending", "t", "p"⟩]
        "Bob" "g.pdf" "Pending" "AB12CD34" "t2" "qrcodes/").1.map CsvRecord.job_id) =
      ["AB12CD34", "AB12CD34"] ∧
    ¬ (["AB12CD34", "AB12CD34"] : List String).Nodup := by decide

/-- C6 (amended): the CSV variant performs *no* duplicate-id check at all:
once the two required text fields are non-empty, the new row is appended and
success is reported even when some existing row already carries the same id.
Uniqueness rests solely on the randomness of the 8-hex-digit token. -/
theorem admin_no_duplicate_check
    (df : List CsvRecord) (c d s id t dir : String) (r : CsvRecord)
    (_hmem : r ∈ df) (_hid : r.job_id = id) (hc : c ≠ "") (hd : d ≠ "") :
    (admin_create_job df c d s id t dir).2 = true ∧
    (admin_create_job df c d s id t dir).1 =
      df ++ [⟨id, c, d, s, t, dir ++ id ++ ".png"⟩] := by
  constructor <;> simp [admin_create_job, hc, hd]

/-- C6 (witness): `admin_no_duplicate_check` on a store already holding the
colliding id. -/
theorem admin_no_duplicate_check_witness :
    (admin_create_job [⟨"AB12CD34", "Ana", "f.pdf", "Pending", "t", "p"⟩]
        "Cara" "h.pdf" "Pending" "AB12CD34" "t3" "qrcodes/").2 = true ∧
    (admin_create_job [⟨"AB12CD34", "Ana", "f.pdf", "Pending", "t", "p"⟩]
        "Cara" "h.pdf" "Pending" "AB12CD34" "t3" "qrcodes/").1 =
      [⟨"AB12CD34", "Ana", "f.pdf", "Pending", "t", "p"⟩] ++
        [⟨"AB12CD34", "Cara", "h.pdf", "Pending", "t3", "qrcodes/AB12CD34.png"⟩] :=
  admin_no_duplicate_check [⟨"AB12CD34", "Ana", "f.pdf", "Pending", "t", "p"⟩]
    "Cara" "h.pdf" "Pending" "AB12CD34" "t3" "qrcodes/"
    ⟨"AB12CD34", "Ana", "f.pdf", "Pending", "t", "p"⟩
    (by decide) (by decide) (by decide) (by decide)

/-! ## C9 — unknown status renders as the first stage -/

/-- C9: a status string outside the five fixed stages never breaks the
viewer's progress display: `STATUS_STEPS.index` raising is caught and the
current stage index falls back to `0`, the first stage. -/
theorem unknown_status_first_stage (status : String)
    (h : status ∉ STATUS_STEPS) : current_index status = 0 := by
  have hnone : STATUS_STEPS.findIdx? (fun step => step = status) = none := by
    rw [List.findIdx?_eq_none_iff]
    intro x hx
    simp only [decide_eq_false_iff_not]
    exact fun hxs => h (hxs ▸ hx)
  simp [current_index, hnone]

/-- C9 (witness): the CSV variant's spelling `"Ready for Pick Up"` is not one
of the Sheets viewer's five stages, and it renders at index `0`. -/
theorem unknown_status_first_stage_witness :
    "Ready for Pick Up" ∉ STATUS_STEPS ∧ current_index "Ready for Pick Up" = 0 :=
  ⟨by decide, unknown_status_first_stage "Ready for Pick Up" (by decide)⟩

/-! ## C10 — duplicate ids: only the first matching row counts -/

/-- C10: when several rows share an id, `update_status_in_sheet` rewrites only
the *first* matching row (in row order) and returns `true`, and the CSV
viewer renders only the first matching row (`match.iloc[0]`). -/
theorem first_match_semantics :
    (∀ (a b : List JobRecord) (r : JobRecord) (id s : String),
        r.job_id = id → (∀ x ∈ a, x.job_id ≠ id) →
        update_status_in_sheet (a ++ r :: b) id s =
          (a ++ { r with status := s } :: b, true)) ∧
    (∀ (a b : List CsvRecord) (r : CsvRecord) (p : String),
        pystrip r.job_id = pystrip p → (∀ x ∈ a, pystrip x.job_id ≠ pystrip p) →
        p ≠ "" →
        viewer_run true (some (a ++ r :: b)) (some p) = ViewerOutcome.found r) := by
  constructor
  · intro a b r id s hr ha
    induction a with
    | nil => simp [update_status_in_sheet, hr]
    | cons x xs ih =>
      have hx : x.job_id ≠ id := ha x (by simp)
      have ih' := ih (fun y hy => ha y (by simp [hy]))
      simp [update_status_in_sheet, hx, ih']
  · intro a b r p hr ha hp
    have hfilter : (a ++ r :: b).filter (fun x => pystrip x.job_id = pystrip p) =
        r :: b.filter (fun x => pystrip x.job_id = pystrip p) := by
      rw [List.filter_append]
      have hA : a.filter (fun x => pystrip x.job_id = pystrip p) = [] := by
        rw [List.filter_eq_nil_iff]
        intro x hx
        simpa using ha x hx
      rw [hA, List.nil_append, List.filter_cons_of_pos (by simpa using hr)]
    simp [viewer_run, hp, viewer_find_job, hfilter]

/-- C10 (witness): a store holding two rows with id `"J2"` behind one
unrelated row: the update rewrites only the middle row, and the viewer shows
only the middle row. -/
theorem first_match_semantics_witness :
    update_status_in_sheet
        [⟨"J1", "Ana", "a.pdf", "a@b.c", "Pending", "t1", ""⟩,
         ⟨"J2", "Bob", "b.pdf", "b@b.c", "Pending", "t2", ""⟩,
         ⟨"J2", "Cara", "c.pdf", "c@b.c", "Printing", "t3", ""⟩] "J2" "Completed" =
      ([⟨"J1", "Ana", "a.pdf", "a@b.c", "Pending", "t1", ""⟩,
        ⟨"J2", "Bob", "b.pdf", "b@b.c", "Completed", "t2", ""⟩,
        ⟨"J2", "Cara", "c.pdf", "c@b.c", "Printing", "t3", ""⟩], true) ∧
    viewer_run true
        (some [⟨"K1", "Ana", "a", "Pending", "t1", "p1"⟩,
               ⟨"K2", "Bob", "b", "Pending", "t2", "p2"⟩,
               ⟨"K2", "Cara", "c", "Printing", "t3", "p3"⟩]) (some "K2") =
      ViewerOutcome.found ⟨"K2", "Bob", "b", "Pending", "t2", "p2"⟩ :=
  ⟨first_match_semantics.1 [⟨"J1", "Ana", "a.pdf", "a@b.c", "Pending", "t1", ""⟩]
      [⟨"J2", "Cara", "c.pdf", "c@b.c", "Printing", "t3", ""⟩]
      ⟨"J2", "Bob", "b.pdf", "b@b.c", "Pending", "t2", ""⟩ "J2" "Completed"
      (by decide) (by decide),
   first_match_semantics.2 [⟨"K1", "Ana", "a", "Pending", "t1", "p1"⟩]
      [⟨"K2", "Cara", "c", "Printing", "t3", "p3"⟩]
      ⟨"K2", "Bob", "b", "Pending", "t2", "p2"⟩ "K2"
      (by decide) (by decide) (by decide)⟩

/-! ## C7 — store-failure policy -/

/-- C7 (counterexample): a failing sheet read inside
`find_existing_qr_for_email` (`findReadFails = true`) is caught by its own
`except Exception: return None` — creation does not abort, no error reaches
the user: the run reports full success and appends a row with a freshly
generated QR.  The store-level failure is silently swallowed. -/
theorem store_failure_swallowed_cex :
    create_job [] "Ana" "invoice.pdf" "ana@example.com" "t" "http://img/x.png"
        true false false =
      ([⟨"MCADD_001", "Ana", "invoice.pdf", "ana@example.com", "Pending", "t",
         "=IMAGE(\"http://img/x.png\")"⟩], CreateOutcome.createdOk) := by decide

/-- C7 (amended): the CSV viewer does surface store failures and abort
(missing file, unreadable file), and nothing is ever retried; but in the
Sheets variant a read failure inside `find_existing_qr_for_email` is
swallowed — it returns `None` exactly as if no QR existed, and the creation
proceeds to append a record with a fresh QR instead of aborting. -/
theorem store_failure_policy :
    (∀ (readResult : Option (List CsvRecord)) (p : Option String),
        viewer_run false readResult p = ViewerOutcome.errMissingCsv) ∧
    (∀ p : Option String, viewer_run true none p = ViewerOutcome.errReadFailed) ∧
    (∀ e : String, find_existing_qr_for_email e none = none) ∧
    (∀ (store : List JobRecord) (c f e t u : String),
        c ≠ "" → f ≠ "" → e ≠ "" →
        create_job store c f e t u true false false =
          (store ++ [{ mkNewRecord store c f e t with qr_path := qrFormula u }],
           CreateOutcome.createdOk)) := by
  refine ⟨?_, ?_, ?_, ?_⟩
  · intro readResult p; rfl
  · intro p; rfl
  · intro e; rfl
  · intro store c f e t u hc hf he
    unfold create_job
    rw [if_neg (by simp [hc, hf, he])]
    simp [find_existing_qr_for_email, setLastQr_append]

/-- C7 (witness): `store_failure_policy` at concrete inputs. -/
theorem store_failure_policy_witness :
    viewer_run false (some []) (some "J1") = ViewerOutcome.errMissingCsv ∧
    viewer_run true none (some "J1") = ViewerOutcome.errReadFailed ∧
    find_existing_qr_for_email "a@b.c" none = none ∧
    create_job [] "Ana" "invoice.pdf" "a@b.c" "t" "http://img/x.png" true false false =
      ([{ mkNewRecord [] "Ana" "invoice.pdf" "a@b.c" "t" with
          qr_path := qrFormula "http://img/x.png" }], CreateOutcome.createdOk) :=
  ⟨store_failure_policy.1 (some []) (some "J1"),
   store_failure_policy.2.1 (some "J1"),
   store_failure_policy.2.2.1 "a@b.c",
   store_failure_policy.2.2.2 [] "Ana" "invoice.pdf" "a@b.c" "t" "http://img/x.png"
      (by decide) (by decide) (by decide)⟩

/-! ## C8 — the email lookup of the viewer -/

theorem toNat_ofNat_of_lt {n : Nat} (h : n < 55296) : (Char.ofNat n).toNat = n := by
  have hv : n.isValidChar := Or.inl h
  rw [Char.ofNat, dif_pos hv]
  simp [Char.ofNatAux, Char.toNat, UInt32.toNat]

theorem char_eq_iff_toNat {a b : Char} : a = b ↔ a.toNat = b.toNat := by
  constructor
  · intro h; rw [h]
  · intro h
    exact Char.ext (UInt32.toNat.inj h)

theorem isWhitespace_iff (c : Char) :
    c.isWhitespace = true ↔
      (c.toNat = 32 ∨ c.toNat = 9 ∨ c.toNat = 13 ∨ c.toNat = 10) := by
  simp only [Char.isWhitespace, Bool.or_eq_true, decide_eq_true_eq,
    char_eq_iff_toNat, show (' ' : Char).toNat = 32 from rfl,
    show ('\t' : Char).toNat = 9 from rfl,
    show ('\r' : Char).toNat = 13 from rfl,
    show ('\n' : Char).toNat = 10 from rfl]
  tauto

/-- Lowercasing never turns a character into whitespace or out of it. -/
theorem isWhitespace_toLower (c : Char) :
    (Char.toLower c).isWhitespace = c.isWhitespace := by
  rw [Char.toLower]
  by_cases h : c.toNat ≥ 65 ∧ c.toNat ≤ 90
  · rw [if_pos h]
    obtain ⟨h1, h2⟩ := h
    have hof : (Char.ofNat (c.toNat + 32)).toNat = c.toNat + 32 :=
      toNat_ofNat_of_lt (by omega)
    have hlhs : (Char.ofNat (c.toNat + 32)).isWhitespace = false := by
      rw [Bool.eq_false_iff]
      intro hw
      rcases (isWhitespace_iff _).mp hw with h' | h' | h' | h' <;> omega
    have hrhs : c.isWhitespace = false := by
      rw [Bool.eq_false_iff]
      intro hw
      rcases (isWhitespace_iff _).mp hw with h' | h' | h' | h' <;> omega
    rw [hlhs, hrhs]
  · rw [if_neg h]

theorem stripList_map_toLower (l : List Char) :
    stripList (l.map Char.toLower) = (stripList l).map Char.toLower := by
  have hp : (ws ∘ Char.toLower) = ws := funext fun c => isWhitespace_toLower c
  simp only [stripList, List.dropWhile_map, hp, ← List.map_reverse]

/-- `strip` and `lower` commute. -/
theorem pylower_pystrip (s : String) :
    pylower (pystrip s) = pystrip (pylower s) := by
  show (⟨(stripList s.data).map Char.toLower⟩ : String) =
    ⟨stripList (s.data.map Char.toLower)⟩
  rw [stripList_map_toLower]

/-- C8 (counterexample): the viewer's filter strips the *query* before
comparing, so the query `" a@b.c"` (leading space) returns the record with
email `"a@b.c"` even though the two strings do not match under
case-insensitive exact comparison: the claim's characterisation of the
returned set is wrong for queries with surrounding whitespace. -/
theorem email_filter_whitespace_cex :
    viewer_email_filter [⟨"MCADD_001", "Ana", "invoice.pdf", "a@b.c", "Pending", "t", ""⟩]
        " a@b.c" =
      [⟨"MCADD_001", "Ana", "invoice.pdf", "a@b.c", "Pending", "t", ""⟩] ∧
    pylower "a@b.c" ≠ pylower " a@b.c" := by decide

/-- C8 (amended): the viewer returns exactly the records whose lowercased
`client_email` equals the lowercased, whitespace-stripped query; for queries
carrying no surrounding whitespace this is precisely case-insensitive exact
match, and any two queries equal up to letter case always give the same set
of records. -/
theorem email_filter_spec :
    (∀ (df : List JobRecord) (q : String) (r : JobRecord),
        r ∈ viewer_email_filter df q ↔
          r ∈ df ∧ pylower r.client_email = pylower (pystrip q)) ∧
    (∀ (df : List JobRecord) (q : String) (r : JobRecord),
        pystrip q = q →
        (r ∈ viewer_email_filter df q ↔
          r ∈ df ∧ pylower r.client_email = pylower q)) ∧
    (∀ (df : List JobRecord) (q1 q2 : String),
        pylower q1 = pylower q2 →
        viewer_email_filter df q1 = viewer_email_filter df q2) := by
  have hmem : ∀ (df : List JobRecord) (q : String) (r : JobRecord),
      r ∈ viewer_email_filter df q ↔
        r ∈ df ∧ pylower r.client_email = pylower (pystrip q) := by
    intro df q r
    simp [viewer_email_filter, List.mem_filter]
  refine ⟨hmem, ?_, ?_⟩
  · intro df q r hq
    rw [hmem, hq]
  · intro df q1 q2 h
    have hq : pylower (pystrip q1) = pylower (pystrip q2) := by
      rw [pylower_pystrip, pylower_pystrip, h]
    unfold viewer_email_filter
    rw [hq]

/-- C8 (witness): `email_filter_spec` at concrete inputs: a mixed-case query
finds the record, and two case-variants of the query agree. -/
theorem email_filter_spec_witness :
    ((⟨"MCADD_001", "Ana", "invoice.pdf", "Ana@B.c", "Pending", "t", ""⟩ : JobRecord) ∈
        viewer_email_filter
          [⟨"MCADD_001", "Ana", "invoice.pdf", "Ana@B.c", "Pending", "t", ""⟩] "ANA@b.C" ↔
      (⟨"MCADD_001", "Ana", "invoice.pdf", "Ana@B.c", "Pending", "t", ""⟩ : JobRecord) ∈
          [⟨"MCADD_001", "Ana", "invoice.pdf", "Ana@B.c", "Pending", "t", ""⟩] ∧
        pylower "Ana@B.c" = pylower "ANA@b.C") ∧
    viewer_email_filter
        [⟨"MCADD_001", "Ana", "invoice.pdf", "Ana@B.c", "Pending", "t", ""⟩] "ana@b.c" =
      viewer_email_filter
        [⟨"MCADD_001", "Ana", "invoice.pdf", "Ana@B.c", "Pending", "t", ""⟩] "ANA@B.C" :=
  ⟨email_filter_spec.2.1
      [⟨"MCADD_001", "Ana", "invoice.pdf", "Ana@B.c", "Pending", "t", ""⟩]
      "ANA@b.C"
      ⟨"MCADD_001", "Ana", "invoice.pdf", "Ana@B.c", "Pending", "t", ""⟩ (by decide),
   email_filter_spec.2.2
      [⟨"MCADD_001", "Ana", "invoice.pdf", "Ana@B.c", "Pending", "t", ""⟩]
      "ana@b.c" "ANA@B.C" (by decide)⟩

/-! ## C5 — uniqueness of job ids under sequential creation

The counter scheme `job_id = "MCADD_" + zfill3 (len + 1)` yields pairwise
distinct ids for any sequential run.  The key fact is that
`n ↦ zfill 3 (Nat.repr n)` is injective on positive numbers, which needs the
correctness of core's `Nat.toDigitsCore` with respect to `Nat.digits`. -/

theorem toDigitsCore_eq_digits : ∀ (fuel n : Nat) (ds : List Char), 0 < n → n < fuel →
    Nat.toDigitsCore 10 fuel n ds = ((Nat.digits 10 n).map Nat.digitChar).reverse ++ ds := by
  intro fuel
  induction fuel with
  | zero => intro n ds h1 h2; omega
  | succ f ih =>
    intro n ds h1 h2
    simp only [Nat.toDigitsCore]
    by_cases hd : n / 10 = 0
    · rw [if_pos hd]
      rw [Nat.digits_def' (by norm_num : 1 < 10) h1, hd]
      simp
    · rw [if_neg hd]
      have hpos : 0 < n / 10 := Nat.pos_of_ne_zero hd
      have hlt : n / 10 < f := by
        have := Nat.div_lt_self h1 (by norm_num : 1 < 10)
        omega
      rw [ih (n / 10) (Nat.digitChar (n % 10) :: ds) hpos hlt]
      rw [Nat.digits_def' (by norm_num : 1 < 10) h1]
      simp

theorem repr_data_eq (n : Nat) (h : 0 < n) :
    (Nat.repr n).data = ((Nat.digits 10 n).map Nat.digitChar).reverse := by
  show (Nat.toDigits 10 n).asString.data = _
  rw [Nat.toDigits, toDigitsCore_eq_digits (n + 1) n [] h (Nat.lt_succ_self n)]
  simp [List.asString]

theorem digitChar_inj_bounded :
    ∀ a < 10, ∀ b < 10, Nat.digitChar a = Nat.digitChar b → a = b := by decide

theorem digitChar_ne_zero_char : ∀ d < 10, d ≠ 0 → Nat.digitChar d ≠ '0' := by decide

theorem map_digitChar_inj : ∀ (xs ys : List Nat),
    (∀ x ∈ xs, x < 10) → (∀ y ∈ ys, y < 10) →
    xs.map Nat.digitChar = ys.map Nat.digitChar → xs = ys := by
  intro xs
  induction xs with
  | nil =>
    intro ys _ _ h
    cases ys with
    | nil => rfl
    | cons y yt => simp at h
  | cons x xt ih =>
    intro ys hx hy h
    cases ys with
    | nil => simp at h
    | cons y yt =>
      simp only [List.map_cons, List.cons.injEq] at h
      obtain ⟨h1, h2⟩ := h
      have hxy : x = y :=
        digitChar_inj_bounded x (hx x (by simp)) y (hy y (by simp)) h1
      rw [hxy, ih yt (fun z hz => hx z (by simp [hz])) (fun z hz => hy z (by simp [hz])) h2]

theorem repr_data_inj {a b : Nat} (ha : 0 < a) (hb : 0 < b)
    (h : (Nat.repr a).data = (Nat.repr b).data) : a = b := by
  rw [repr_data_eq a ha, repr_data_eq b hb] at h
  have hmap : (Nat.digits 10 a).map Nat.digitChar = (Nat.digits 10 b).map Nat.digitChar :=
    List.reverse_injective h
  have hdig : Nat.digits 10 a = Nat.digits 10 b :=
    map_digitChar_inj _ _ (fun x hx => Nat.digits_lt_base (by norm_num) hx)
      (fun y hy => Nat.digits_lt_base (by norm_num) hy) hmap
  have := congrArg (Nat.ofDigits 10) hdig
  rw [Nat.ofDigits_digits, Nat.ofDigits_digits] at this
  exact_mod_cast this

theorem repr_head_ne_zero (n : Nat) (h : 0 < n) :
    (Nat.repr n).data.head? ≠ some '0' := by
  rw [repr_data_eq n h, ← List.map_reverse, List.head?_map, List.head?_reverse]
  have hne : Nat.digits 10 n ≠ [] := Nat.digits_ne_nil_iff_ne_zero.mpr (by omega)
  rw [List.getLast?_eq_getLast _ hne]
  have h10 : (Nat.digits 10 n).getLast hne < 10 :=
    Nat.digits_lt_base (by norm_num) (List.getLast_mem hne)
  have h0 : (Nat.digits 10 n).getLast hne ≠ 0 :=
    Nat.getLast_digit_ne_zero 10 (by omega)
  simp only [Option.map_some', ne_eq, Option.some.injEq]
  exact digitChar_ne_zero_char _ h10 h0

theorem pad_eq_inj : ∀ (p q : Nat) (xs ys : List Char),
    xs.head? ≠ some '0' → ys.head? ≠ some '0' →
    List.replicate p '0' ++ xs = List.replicate q '0' ++ ys → xs = ys := by
  intro p
  induction p with
  | zero =>
    intro q xs ys hx hy h
    cases q with
    | zero => simpa using h
    | succ q' =>
      simp only [List.replicate_zero, List.replicate_succ, List.nil_append,
        List.cons_append] at h
      rw [h] at hx
      simp at hx
  | succ p' ih =>
    intro q xs ys hx hy h
    cases q with
    | zero =>
      simp only [List.replicate_zero, List.replicate_succ, List.nil_append,
        List.cons_append] at h
      rw [← h] at hy
      simp at hy
    | succ q' =>
      simp only [List.replicate_succ, List.cons_append, List.cons.injEq] at h
      exact ih q' xs ys hx hy h.2

theorem mkJobId_inj {a b : Nat} (ha : 0 < a) (hb : 0 < b)
    (h : mkJobId a = mkJobId b) : a = b := by
  have hd : "MCADD_".data ++ (zfill 3 (Nat.repr a)).data =
      "MCADD_".data ++ (zfill 3 (Nat.repr b)).data := by
    have := congrArg String.data h
    simpa [mkJobId, String.data_append] using this
  have hz : (zfill 3 (Nat.repr a)).data = (zfill 3 (Nat.repr b)).data :=
    List.append_cancel_left hd
  have hpad : List.replicate (3 - (Nat.repr a).length) '0' ++ (Nat.repr a).data =
      List.replicate (3 - (Nat.repr b).length) '0' ++ (Nat.repr b).data := hz
  exact repr_data_inj ha hb
    (pad_eq_inj _ _ _ _ (repr_head_ne_zero a ha) (repr_head_ne_zero b hb) hpad)

theorem idsByPos_nil : idsByPos [] := by
  intro j r h
  simp at h

theorem idsByPos_append (store : List JobRecord) (r : JobRecord)
    (hs : idsByPos store) (hr : r.job_id = mkJobId (store.length + 1)) :
    idsByPos (store ++ [r]) := by
  intro j x hx
  by_cases hj : j < store.length
  · rw [List.getElem?_append_left hj] at hx
    exact hs j x hx
  · have hj2 : store.length ≤ j := by omega
    rw [List.getElem?_append_right hj2] at hx
    cases hsub : j - store.length with
    | zero =>
      rw [hsub] at hx
      simp only [List.getElem?_cons_zero, Option.some.injEq] at hx
      have hjlen : j = store.length := by omega
      rw [← hx, hjlen]
      exact hr
    | succ k =>
      rw [hsub] at hx
      simp at hx

theorem create_job_idsByPos (store : List JobRecord)
    (c f e t u : String) (fr qf cu : Bool) (hs : idsByPos store) :
    idsByPos (create_job store c f e t u fr qf cu).1 := by
  rcases create_job_store_shape store c f e t u fr qf cu with h | ⟨q, h⟩
  · rw [h]; exact hs
  · rw [h]
    exact idsByPos_append _ _ hs rfl

theorem runCreates_idsByPos : ∀ (inputs : List CreateInput) (store : List JobRecord),
    idsByPos store → idsByPos (runCreates store inputs) := by
  intro inputs
  induction inputs with
  | nil => intro store hs; exact hs
  | cons i rest ih =>
    intro store hs
    exact ih _ (create_job_idsByPos store i.client i.fileName i.clientEmail
      i.createdAt i.freshUrl i.findReadFails i.qrUploadFails i.cellUpdateFails hs)

theorem idsByPos_nodup (store : List JobRecord) (hs : idsByPos store) :
    (store.map JobRecord.job_id).Nodup := by
  have hmap : store.map JobRecord.job_id =
      (List.range store.length).map (fun j => mkJobId (j + 1)) := by
    apply List.ext_getElem?
    intro n
    rw [List.getElem?_map, List.getElem?_map]
    by_cases hn : n < store.length
    · have hsome : store[n]? = some store[n] := List.getElem?_eq_getElem hn
      rw [hsome, List.getElem?_range hn]
      simp [hs n store[n] hsome]
    · have h1 : store[n]? = none := List.getElem?_eq_none (by omega)
      have h2 : (List.range store.length)[n]? = none :=
        List.getElem?_eq_none (by simp; omega)
      rw [h1, h2]
      rfl
  rw [hmap]
  have hinj : Function.Injective (fun j => mkJobId (j + 1)) := by
    intro x y hxy
    have := mkJobId_inj (Nat.succ_pos x) (Nat.succ_pos y) hxy
    omega
  exact (List.nodup_range _).map hinj

/-- C5 (counterexample): the claim, read over both variants, fails in the
CSV variant: the id is an externally drawn random token that the code never
checks, so a sequence of two creates from the empty store whose tokens happen
to coincide leaves two records with the same `job_id`. -/
theorem create_seq_duplicate_ids :
    ((admin_create_job
        (admin_create_job [] "Ana" "f.pdf" "Pending" "AAAAAAAA" "t1" "qrcodes/").1
        "Bob" "g.pdf" "Pending" "AAAAAAAA" "t2" "qrcodes/").1.map CsvRecord.job_id) =
      ["AAAAAAAA", "AAAAAAAA"] ∧
    ¬ (["AAAAAAAA", "AAAAAAAA"] : List String).Nodup := by decide

/-- C5 (amended): in the counter-based Sheets variant, *every* sequential run
of create operations from the empty store — whatever the inputs, including
runs where some creations fail — leaves a store whose `job_id`s are pairwise
distinct (so N successful creates yield N distinct ids, and two back-to-back
creates differ).  In the uuid-based CSV variant the ids are the externally
drawn tokens, appended without any distinctness check. -/
theorem counter_ids_distinct (inputs : List CreateInput) :
    ((createSeq inputs).map JobRecord.job_id).Nodup :=
  idsByPos_nodup _ (runCreates_idsByPos inputs [] idsByPos_nil)

end PrintTracker
